import Mathlib

/-!
Shallow embedding of the hlskit-rs HLS transcoding pipeline.

Each definition mirrors one item of the Rust source:
  * models/hls_video.rs                 : segment / resolution / package records
  * models/hls_video_processing_settings.rs : profile settings and preset enum
  * tools/hlskit_error.rs               : error enums
  * tools/ffmpeg_command_builder.rs     : FfmpegCommand, FfmpegCommandBuilder
  * tools/command_runner.rs             : run_command
  * services/hls_video_processing_service.rs : run_ffmpeg_command
  * tools/segment_tools.rs              : read_playlist_and_segments
  * tools/m3u8_tools.rs                 : generate_master_playlist
  * backends/ffmpeg_backend.rs          : FfmpegBackend.process_profile
  * lib.rs                              : VideoInputType, validate, process_video_internal

The filesystem, the temp-file allocator and the child-process machinery are
the ambient OS; they are modelled by explicit `Fs` / `World` records so the
orchestration logic stays a pure function of them.  Machine integers (i32)
are modelled as `Int`; byte buffers (`Vec<u8>`) as `List Nat`.  Unless noted,
control flow is translated branch for branch.
-/

/-- `Vec<u8>` of the source. -/
abbrev Bytes := List Nat

/-- Results of fallible steps are compared in witnesses, so `Except`
needs decidable equality. -/
instance exceptDecEq {e a : Type} [DecidableEq e] [DecidableEq a] :
    DecidableEq (Except e a) := fun x y =>
  match x, y with
  | .ok v, .ok v2 =>
    if h : v = v2 then .isTrue (by rw [h]) else .isFalse (by intro hc; cases hc; exact h rfl)
  | .error v, .error v2 =>
    if h : v = v2 then .isTrue (by rw [h]) else .isFalse (by intro hc; cases hc; exact h rfl)
  | .ok _, .error _ => .isFalse (by intro hc; cases hc)
  | .error _, .ok _ => .isFalse (by intro hc; cases hc)

/-- models/hls_video.rs: `HlsVideoSegment`. -/
structure HlsVideoSegment where
  segment_name : String
  segment_data : Bytes
deriving DecidableEq, Repr, Inhabited

/-- models/hls_video.rs: `HlsVideoResolution`. -/
structure HlsVideoResolution where
  resolution : Int × Int
  playlist_name : String
  playlist_data : Bytes
  segments : List HlsVideoSegment
deriving DecidableEq, Repr, Inhabited

/-- models/hls_video.rs: `HlsVideo`.  `master_m3u8_data` is `Vec<u8>` holding
UTF-8 text in the source; it is modelled as the decoded string. -/
structure HlsVideo where
  master_m3u8_data : String
  resolutions : List HlsVideoResolution
deriving DecidableEq, Repr, Inhabited

/-- models/hls_video_processing_settings.rs: `FfmpegVideoProcessingPreset`. -/
inductive FfmpegVideoProcessingPreset where
  | verySlow | slower | slow | medium | fast | faster | veryFast | superFast | ultraFast
deriving DecidableEq, Repr

/-- models/hls_video_processing_settings.rs: `FfmpegVideoProcessingPreset::value`. -/
def FfmpegVideoProcessingPreset.value : FfmpegVideoProcessingPreset → String
  | .verySlow => "veryslow"
  | .slower => "slower"
  | .slow => "slow"
  | .medium => "medium"
  | .fast => "fast"
  | .faster => "faster"
  | .veryFast => "veryfast"
  | .superFast => "superfast"
  | .ultraFast => "ultrafast"

/-- models/hls_video_processing_settings.rs: `HlsVideoAudioCodec`. -/
inductive HlsVideoAudioCodec where
  | aac | mp3 | vorbis
deriving DecidableEq, Repr

/-- models/hls_video_processing_settings.rs: `HlsVideoAudioBitrate`. -/
inductive HlsVideoAudioBitrate where
  | low | medium | high
deriving DecidableEq, Repr

/-- models/hls_video_processing_settings.rs: `HlsVideoProcessingSettings`. -/
structure HlsVideoProcessingSettings where
  resolution : Int × Int
  constant_rate_factor : Int
  audio_codec : HlsVideoAudioCodec
  audio_bitrate : HlsVideoAudioBitrate
  preset : FfmpegVideoProcessingPreset
deriving DecidableEq, Repr

/-- tools/hlskit_error.rs: `VideoValidatableErrors`. -/
inductive VideoValidatableErrors where
  | invalidFormat
  | emptyVideoInput
  | invalidVideoInput (error : String)
  | fileNotFound
deriving DecidableEq, Repr

/-- tools/hlskit_error.rs: `VideoProcessingErrors`. -/
inductive VideoProcessingErrors where
  | missingOutputPath
  | unsupportedBitrate
deriving DecidableEq, Repr

/-- tools/hlskit_error.rs: `FfmpegCommandBuilderError`. -/
inductive FfmpegCommandBuilderError where
  | configurationError (msg : String)
  | buildError (msg : String)
  | io (msg : String)
  | conversionError (msg : String)
  | internalStateError (msg : String)
  | ffmpegSettingError (msg : String)
deriving DecidableEq, Repr

/-- tools/hlskit_error.rs: the `thiserror` display strings of
`FfmpegCommandBuilderError` (used by `build()` when it aggregates). -/
def FfmpegCommandBuilderError.displayText : FfmpegCommandBuilderError → String
  | .configurationError m => "Configuration Validation Error: " ++ m
  | .buildError m => "Command Build Error: " ++ m
  | .io m => m
  | .conversionError m => "Conversion Error: " ++ m
  | .internalStateError m => "Unexpected Internal State: " ++ m
  | .ffmpegSettingError m => "FFmpeg specific setting error: " ++ m

/-- tools/hlskit_error.rs: `GStreamerCommandBuilderError`. -/
inductive GStreamerCommandBuilderError where
  | invalidDimensions (msg : String)
  | invalidBitrate (msg : String)
  | invalidConfig (msg : String)
  | missingInput
  | missingOutput
deriving DecidableEq, Repr

/-- tools/hlskit_error.rs: `HlsKitError`.  `commandExecutionError` is the
variant `tools/command_runner.rs` constructs (`HlsKitError::CommandExecutionError`). -/
inductive HlsKitError where
  | io (msg : String)
  | ffmpegBuilder (e : FfmpegCommandBuilderError)
  | gstreamerBuilder (e : GStreamerCommandBuilderError)
  | videoProcessingError (e : VideoProcessingErrors)
  | videoValidationError (e : VideoValidatableErrors)
  | ffmpegError (error : String)
  | gstreamerError (error : String)
  | fileNotFound (file_path : String)
  | commandExecutionError (error : String)
deriving DecidableEq, Repr

/-- The constructor (variant) of an `HlsKitError`: what a caller can
distinguish by matching on the error enum, ignoring the message payload. -/
def HlsKitError.classIdx : HlsKitError → Nat
  | .io _ => 0
  | .ffmpegBuilder _ => 1
  | .gstreamerBuilder _ => 2
  | .videoProcessingError _ => 3
  | .videoValidationError _ => 4
  | .ffmpegError _ => 5
  | .gstreamerError _ => 6
  | .fileNotFound _ => 7
  | .commandExecutionError _ => 8

/-- The variant of a runner result: 0 for success, `1 + classIdx` on error. -/
def runResultClass : Except HlsKitError Unit → Nat
  | .ok _ => 0
  | .error e => 1 + e.classIdx

/-- The ambient filesystem the pipeline reads: existence, regular-file
status and the byte content of a path. -/
structure Fs where
  pathExists : String → Bool
  isFile : String → Bool
  fileContent : String → Bytes

/-- What the OS reports for one spawned child process: the spawn itself
failed, waiting on it failed, or it ran and exited (successfully or not)
with a captured standard-error stream. -/
inductive ProcessOutcome where
  | spawnFailure (diag : String)
  | waitFailure (diag : String)
  | completed (success : Bool) (stderrText : String)
deriving DecidableEq, Repr

/-- The ambient world of one orchestration run: the filesystem, the OS
behaviour of each spawned command, the path the temp-file allocator hands
out and the path `TempDir::new()` creates. -/
structure World where
  fs : Fs
  run : List String → ProcessOutcome
  tempFilePath : String
  outputDirPath : String

/-- Observable side effects of the orchestration, in program order. -/
inductive Event where
  | createOutputDir
  | spawn (command : List String)
deriving DecidableEq, Repr

/- ---------------------------------------------------------------------
String helpers.  Rust's `format!("{:03}", n)`, `str::replace` on the
literal pattern `%03d`, `Path::extension` and `str::to_lowercase` are
re-implemented structurally so they evaluate inside the kernel.
--------------------------------------------------------------------- -/

/-- Rust `format!("{:03}", n)`: decimal, zero-padded to width 3. -/
def fmt03 (n : Nat) : String :=
  let s := toString n
  if s.length < 3 then String.mk (List.replicate (3 - s.length) '0') ++ s else s

/-- `str::replace(pattern, repl)` specialised to the literal pattern
`"%03d"` (the only pattern the source ever substitutes). -/
def replaceAll03 (repl : List Char) : List Char → List Char
  | '%' :: '0' :: '3' :: 'd' :: rest => repl ++ replaceAll03 repl rest
  | c :: rest => c :: replaceAll03 repl rest
  | [] => []

/-- The concrete segment path tried at one index:
`segment_filename.replace("%03d", &format!("{segment_index:03}"))`. -/
def segPathOf (segment_filename : String) (segment_index : Nat) : String :=
  String.mk (replaceAll03 (fmt03 segment_index).toList segment_filename.toList)

/-- Split a character list at every occurrence of `c` (used to model
`Path::extension`). -/
def splitOnChar (c : Char) : List Char → List (List Char)
  | [] => [[]]
  | x :: xs =>
    match splitOnChar c xs with
    | [] => [[x]]
    | y :: ys => if x = c then [] :: y :: ys else (x :: y) :: ys

/-- The final path component (`Path::file_name`), as characters. -/
def pathFileName (path : String) : List Char :=
  (path.toList.reverse.takeWhile (fun c => c ≠ '/')).reverse

/-- Rust `Path::extension`: the part of the file name after the last `.`;
`none` when there is no `.`, or when the name starts with `.` and has no
other `.`. -/
def pathExtension (path : String) : Option String :=
  match splitOnChar '.' (pathFileName path) with
  | [] => none
  | [_] => none
  | [] :: [_] => none
  | parts => some (String.mk (parts.getLastD []))

/-- ASCII `str::to_lowercase` (extensions in the source are ASCII). -/
def lowerAscii (s : String) : String :=
  String.mk (s.toList.map Char.toLower)

/-- Rust `Vec::join(sep)` on strings. -/
def joinSep (sep : String) : List String → String
  | [] => ""
  | [x] => x
  | x :: y :: rest => x ++ sep ++ joinSep sep (y :: rest)

/- ---------------------------------------------------------------------
lib.rs: input validation.
--------------------------------------------------------------------- -/

/-- lib.rs: `VideoInputType`. -/
inductive VideoInputType where
  | inMemoryFile (video_data : Bytes)
  | filePath (path : String)
deriving DecidableEq, Repr

/-- traits/video_validatable.rs (declared there, used in lib.rs):
`VideoInputPathGuard { path, temp_file }`.  The `NamedTempFile` handle is
modelled by the flag `temp_file`. -/
structure VideoInputPathGuard where
  path : String
  temp_file : Bool
deriving DecidableEq, Repr

/-- lib.rs: the inner `is_valid_magic_bytes(buf, ext)` of `validate`. -/
def is_valid_magic_bytes (buf : Bytes) (ext : String) : Bool :=
  if ext = "mp4" ∨ ext = "mov" then
    decide (buf.length ≥ 8) && decide ((buf.drop 4).take 4 = [0x66, 0x74, 0x79, 0x70])
  else if ext = "mkv" then
    decide (buf.length ≥ 4) && decide (buf.take 4 = [0x1A, 0x45, 0xDF, 0xA3])
  else if ext = "avi" then
    decide (buf.length ≥ 12) && decide (buf.take 4 = [0x52, 0x49, 0x46, 0x46])
      && decide ((buf.drop 8).take 4 = [0x41, 0x56, 0x49, 0x20])
  else false

/-- lib.rs: `valid_video_extensions`. -/
def valid_video_extensions : List String := ["mp4", "mkv", "avi", "mov"]

/-- lib.rs: `VideoValidatable::validate` for `VideoInputType`.  Temp-file
creation and writing are modelled as succeeding, yielding `tempFilePath`;
`File::open`/`read` on an existing path are modelled by `fs.fileContent`
(the first 16 bytes are what the source reads into its probe buffer). -/
def VideoInputType.validate (fs : Fs) (tempFilePath : String) :
    VideoInputType → Except VideoValidatableErrors VideoInputPathGuard
  | .inMemoryFile video_data =>
    if video_data.isEmpty then .error .emptyVideoInput
    else if valid_video_extensions.any (fun ext => is_valid_magic_bytes video_data ext) then
      .ok { path := tempFilePath, temp_file := true }
    else .error .invalidFormat
  | .filePath path =>
    if path = "" then .error .emptyVideoInput
    else if fs.pathExists path = false then .error .fileNotFound
    else if fs.isFile path = false then
      .error (.invalidVideoInput "The given video is not a file")
    else
      let ext := lowerAscii ((pathExtension path).getD "invalid")
      if valid_video_extensions.contains ext = false then
        .error (.invalidVideoInput "The given video hasn't a valid extension")
      else if is_valid_magic_bytes ((fs.fileContent path).take 16) ext = false then
        .error .invalidFormat
      else .ok { path := path, temp_file := false }

/-- lib.rs: `VideoProcessorEncryptionSettings`. -/
structure VideoProcessorEncryptionSettings where
  encryption_key_url : String
  encryption_key_path : String
  iv : Option String
deriving DecidableEq, Repr

/- ---------------------------------------------------------------------
tools/ffmpeg_command_builder.rs.
--------------------------------------------------------------------- -/

/-- tools/internals/hls_output_config.rs (declared there, used by the
builder): `HlsOutputEncryptionConfig`. -/
structure HlsOutputEncryptionConfig where
  encryption_key_path : String
  iv : Option String
deriving DecidableEq, Repr

/-- tools/internals/hls_output_config.rs: `HlsOutputConfig`, fields exactly
as the builder constructs and `to_args` consumes them. -/
structure HlsOutputConfig where
  segment_filename_pattern : String
  hls_time : Int
  playlist_type : Option String
  base_url : Option String
  encryption_config : Option HlsOutputEncryptionConfig
deriving DecidableEq, Repr

/-- tools/ffmpeg_command_builder.rs: `FfmpegCommand` (paths as strings). -/
structure FfmpegCommand where
  input_path : String := ""
  output_path : String := ""
  width : Int := 0
  height : Int := 0
  crf : Int := 0
  preset : String := ""
  hls_config : Option HlsOutputConfig := none
deriving DecidableEq, Repr, Inhabited

/-- tools/ffmpeg_command_builder.rs: `FfmpegCommand::to_args`. -/
def FfmpegCommand.to_args (c : FfmpegCommand) : List String :=
  ["ffmpeg", "-i", c.input_path,
   "-vf", "scale=" ++ toString c.width ++ "x" ++ toString c.height,
   "-c:v", "libx264", "-crf", toString c.crf, "-preset", c.preset]
  ++ (match c.hls_config with
      | some hls_conf =>
        ["-hls_time", toString hls_conf.hls_time,
         "-hls_playlist_type", hls_conf.playlist_type.getD "vod",
         "-hls_segment_filename", hls_conf.segment_filename_pattern]
        ++ (match hls_conf.base_url with
            | some base_url => ["-hls_base_url", base_url]
            | none => [])
        ++ (match hls_conf.encryption_config with
            | some ec =>
              ["-hls_key_info_file", ec.encryption_key_path]
              ++ (match ec.iv with
                  | some iv => ["-hls_iv", iv]
                  | none => [])
            | none => [])
      | none => [])
  ++ [c.output_path]

/-- tools/ffmpeg_command_builder.rs: `FfmpegCommandBuilder` state. -/
structure FfmpegCommandBuilder where
  command : FfmpegCommand := {}
  build_errors : List FfmpegCommandBuilderError := []
  has_input : Bool := false
  has_output : Bool := false
  has_dimensions : Bool := false
  has_crf : Bool := false
  has_preset : Bool := false
deriving DecidableEq, Repr, Inhabited

/-- `FfmpegCommandBuilder::new`. -/
def FfmpegCommandBuilder.new : FfmpegCommandBuilder := {}

/-- `FfmpegCommandBuilder::input`. -/
def FfmpegCommandBuilder.input (b : FfmpegCommandBuilder) (path : String) : FfmpegCommandBuilder :=
  { b with command := { b.command with input_path := path }, has_input := true }

/-- `FfmpegCommandBuilder::output`. -/
def FfmpegCommandBuilder.output (b : FfmpegCommandBuilder) (path : String) : FfmpegCommandBuilder :=
  { b with command := { b.command with output_path := path }, has_output := true }

/-- `FfmpegCommandBuilder::dimensions`. -/
def FfmpegCommandBuilder.dimensions (b : FfmpegCommandBuilder) (width height : Int) : FfmpegCommandBuilder :=
  { b with
    command := { b.command with width := width, height := height },
    has_dimensions := true,
    build_errors :=
      if width ≤ 0 ∨ height ≤ 0 then
        b.build_errors ++ [.ffmpegSettingError "Width and height must be positive values."]
      else b.build_errors }

/-- `FfmpegCommandBuilder::crf`. -/
def FfmpegCommandBuilder.crf (b : FfmpegCommandBuilder) (value : Int) : FfmpegCommandBuilder :=
  { b with
    command := { b.command with crf := value },
    has_crf := true,
    build_errors :=
      if ¬ (0 ≤ value ∧ value ≤ 51) then
        b.build_errors ++ [.ffmpegSettingError
          ("CRF value " ++ toString value ++ " is outside the standard range [0-51].")]
      else b.build_errors }

/-- tools/ffmpeg_command_builder.rs: the `valid_presets` array inside
`FfmpegCommandBuilder::preset`. -/
def valid_presets : List String :=
  ["ultrafast", "superfast", "fast", "medium", "slow", "slower", "veryslow", "none"]

/-- `FfmpegCommandBuilder::preset`. -/
def FfmpegCommandBuilder.preset (b : FfmpegCommandBuilder) (name : String) : FfmpegCommandBuilder :=
  { b with
    command := { b.command with preset := name },
    has_preset := true,
    build_errors :=
      if valid_presets.contains name = false then
        b.build_errors ++ [.ffmpegSettingError
          ("Preset '" ++ name ++ "' is not a recognized FFmpeg preset.")]
      else b.build_errors }

/-- `FfmpegCommandBuilder::enable_hls`. -/
def FfmpegCommandBuilder.enable_hls (b : FfmpegCommandBuilder)
    (segment_filename_pattern : String) (playlist_type : Option String)
    (base_url : Option String) (encryption_settings : Option HlsOutputEncryptionConfig)
    (hls_segment_duration_seconds : Int) : FfmpegCommandBuilder :=
  let errs1 :=
    if segment_filename_pattern = "" ∨ segment_filename_pattern.toList.contains '%' = false then
      b.build_errors ++ [.ffmpegSettingError
        "HLS segment filename pattern must not be empty and should contain a format specifier (e.g., %03d)."]
    else b.build_errors
  let errs2 :=
    if hls_segment_duration_seconds ≤ 0 then
      errs1 ++ [.ffmpegSettingError "HLS segment duration must be positive."]
    else errs1
  { b with
    build_errors := errs2,
    command := { b.command with hls_config := some (
      { segment_filename_pattern := segment_filename_pattern,
        hls_time := hls_segment_duration_seconds,
        playlist_type := playlist_type,
        base_url := base_url,
        encryption_config := encryption_settings } : HlsOutputConfig) } }

/-- `FfmpegCommandBuilder::build`.  The source's final HLS/output-extension
check pushes onto `self.build_errors` *after* all early returns and still
returns `Ok`, so it never affects the returned value and is omitted here. -/
def FfmpegCommandBuilder.build (b : FfmpegCommandBuilder) :
    Except FfmpegCommandBuilderError (List String) :=
  if b.build_errors.isEmpty = false then
    .error (.buildError ("Command configuration failed: ["
      ++ joinSep "; " (b.build_errors.map FfmpegCommandBuilderError.displayText) ++ "]"))
  else if ¬ b.has_input ∨ b.command.input_path = "" then
    .error (.configurationError "Input path must be set using `.input()`.")
  else if ¬ b.has_output ∨ b.command.output_path = "" then
    .error (.configurationError "Output path must be set using `.output()`.")
  else if ¬ b.has_dimensions then
    .error (.configurationError
      "Output dimensions (width and height) must be set using `.dimensions()`.")
  else if ¬ b.has_crf then
    .error (.configurationError "CRF (quality) must be set using `.crf()`.")
  else if ¬ b.has_preset then
    .error (.configurationError "Preset must be set using `.preset()`.")
  else .ok b.command.to_args

/- ---------------------------------------------------------------------
tools/command_runner.rs and services/hls_video_processing_service.rs:
the two process runners, given what the OS does with the command.
--------------------------------------------------------------------- -/

/-- tools/command_runner.rs: `run_command` (the `command` tokens only feed
the spawn itself and the log lines; the result depends on the outcome). -/
def run_command (_command : List String) (outcome : ProcessOutcome) : Except HlsKitError Unit :=
  match outcome with
  | .spawnFailure diag => .error (.commandExecutionError diag)
  | .waitFailure diag =>
      .error (.commandExecutionError ("Failed to capture GStreamer output: " ++ diag))
  | .completed true _ => .ok ()
  | .completed false stderrText =>
      .error (.commandExecutionError ("GStreamer failed: " ++ stderrText))

/-- services/hls_video_processing_service.rs: `run_ffmpeg_command`. -/
def run_ffmpeg_command (_command : List String) (outcome : ProcessOutcome) : Except HlsKitError Unit :=
  match outcome with
  | .spawnFailure diag => .error (.ffmpegError diag)
  | .waitFailure diag =>
      .error (.ffmpegError ("Failed to write to ffmpeg output: " ++ diag))
  | .completed true _ => .ok ()
  | .completed false stderrText =>
      .error (.ffmpegError ("FFmpeg error: " ++ stderrText))

/- ---------------------------------------------------------------------
tools/segment_tools.rs: playlist and segment discovery.
--------------------------------------------------------------------- -/

/-- tools/segment_tools.rs: the segment-discovery loop of
`read_playlist_and_segments`.  The Rust loop is unbounded; `fuel` bounds
the iterations of the model, and every claim is settled at a fuel large
enough to reach the first missing index. -/
def collectSegments (fs : Fs) (segment_filename : String) (stream_index : Nat) :
    Nat → Nat → List HlsVideoSegment
  | 0, _ => []
  | fuel + 1, segment_index =>
    let segment_path := segPathOf segment_filename segment_index
    if fs.pathExists segment_path then
      { segment_name := "data_" ++ toString stream_index ++ "_" ++ fmt03 segment_index ++ ".ts",
        segment_data := fs.fileContent segment_path }
        :: collectSegments fs segment_filename stream_index fuel (segment_index + 1)
    else []

/-- tools/segment_tools.rs: `read_playlist_and_segments`.  Opening a
missing playlist is the propagated `std::io` error of `File::open`. -/
def read_playlist_and_segments (fs : Fs) (fuel : Nat)
    (playlist_filename segment_filename : String)
    (resolution : Int × Int) (stream_index : Nat) : Except HlsKitError HlsVideoResolution :=
  if fs.pathExists playlist_filename then
    .ok { resolution := resolution,
          playlist_name := "playlist_" ++ toString stream_index ++ ".m3u8",
          playlist_data := fs.fileContent playlist_filename,
          segments := collectSegments fs segment_filename stream_index fuel 0 }
  else .error (.io playlist_filename)

/- ---------------------------------------------------------------------
tools/m3u8_tools.rs: the master playlist.
--------------------------------------------------------------------- -/

/-- tools/m3u8_tools.rs: the `writeln!` loop body of
`generate_master_playlist`, one emitted line per `writeln!`.  `index`
is the running `enumerate` counter; `playlist_filenames[index]` is
modelled with `getD` (the source would panic when out of bounds; every
caller passes lists of equal length). -/
def masterVariantLines (playlist_filenames : List String) :
    Nat → List (Int × Int) → List String
  | _, [] => []
  | index, (width, height) :: rest =>
    ("#EXT-X-STREAM-INF:BANDWIDTH=" ++ toString ((index + 1) * 1500000)
      ++ ",RESOLUTION=" ++ toString width ++ "x" ++ toString height)
      :: playlist_filenames.getD index ""
      :: masterVariantLines playlist_filenames (index + 1) rest

/-- tools/m3u8_tools.rs: `generate_master_playlist`.  The write-then-read
round trip through `master.m3u8` is the identity on the written bytes, so
the model returns the written text directly; every `writeln!` contributes
its line plus a newline. -/
def generate_master_playlist (output_dir_exists : Bool) (output_dir : String)
    (resolutions : List (Int × Int)) (playlist_filenames : List String) :
    Except HlsKitError String :=
  if output_dir_exists = false then
    .error (.fileNotFound output_dir)
  else
    .ok (String.join (("#EXTM3U" :: masterVariantLines playlist_filenames 0 resolutions).map
      (fun line => line ++ "\n")))

/- ---------------------------------------------------------------------
backends/ffmpeg_backend.rs: one profile's pipeline, with its trace of
spawned subprocesses.
--------------------------------------------------------------------- -/

/-- backends/ffmpeg_backend.rs: `FfmpegBackend::process_profile`.  Returns
the result together with the `Event` trace (a `spawn` is recorded exactly
when the command is handed to the OS).  Note the source passes
`encryption_key_url` as the builder's `base_url` parameter. -/
def FfmpegBackend.process_profile (w : World) (fuel : Nat) (input : String)
    (profile : HlsVideoProcessingSettings) (output_dir : String) (stream_index : Nat)
    (encryption : Option VideoProcessorEncryptionSettings) :
    Except HlsKitError HlsVideoResolution × List Event :=
  let segment_filename := output_dir ++ "/data_" ++ toString stream_index ++ "_%03d.ts"
  let playlist_filename := output_dir ++ "/playlist_" ++ toString stream_index ++ ".m3u8"
  let encryption_settings := encryption.map fun enc =>
    ({ encryption_key_path := enc.encryption_key_path, iv := enc.iv } : HlsOutputEncryptionConfig)
  let encryption_key_url := encryption.map fun enc => enc.encryption_key_url
  match (((((FfmpegCommandBuilder.new.input input).dimensions
            profile.resolution.1 profile.resolution.2).crf
            profile.constant_rate_factor).preset
            profile.preset.value).enable_hls
            segment_filename none encryption_key_url encryption_settings 10).output
            playlist_filename |>.build with
  | .error e => (.error (.ffmpegBuilder e), [])
  | .ok command =>
    match run_command command (w.run command) with
    | .error e => (.error e, [.spawn command])
    | .ok _ =>
      match read_playlist_and_segments w.fs fuel playlist_filename segment_filename
          profile.resolution stream_index with
      | .error e => (.error e, [.spawn command])
      | .ok resolution => (.ok resolution, [.spawn command])

/- ---------------------------------------------------------------------
lib.rs: the orchestration.
--------------------------------------------------------------------- -/

/-- lib.rs: the `output_profiles.iter().enumerate().map(...)` fan-out of
`process_video_internal`, one task per profile at its stream index. -/
def processTasks (w : World) (fuel : Nat) (input_path output_dir : String)
    (encryption : Option VideoProcessorEncryptionSettings) :
    Nat → List HlsVideoProcessingSettings →
    List (Except HlsKitError HlsVideoResolution × List Event)
  | _, [] => []
  | index, profile :: rest =>
    FfmpegBackend.process_profile w fuel input_path profile output_dir index encryption
      :: processTasks w fuel input_path output_dir encryption (index + 1) rest

/-- `futures::future::try_join_all`: all results in task order, or the
first error. -/
def try_join_all {ε α : Type} : List (Except ε α) → Except ε (List α)
  | [] => .ok []
  | .error e :: _ => .error e
  | .ok a :: rest =>
    match try_join_all rest with
    | .error e => .error e
    | .ok tail => .ok (a :: tail)

/-- lib.rs: `process_video_internal`.  `TempDir::new()` is modelled as
creating `w.outputDirPath` (recorded as `Event.createOutputDir`), which
therefore exists when `generate_master_playlist` checks it.  The returned
trace is the create event followed by the per-task traces in task order. -/
def process_video_internal (w : World) (fuel : Nat) (input : VideoInputType)
    (output_profiles : List HlsVideoProcessingSettings)
    (encryption : Option VideoProcessorEncryptionSettings) :
    Except HlsKitError HlsVideo × List Event :=
  match VideoInputType.validate w.fs w.tempFilePath input with
  | .error e => (.error (.videoValidationError e), [])
  | .ok input_dir_guard =>
    let input_path := input_dir_guard.path
    let tasks := processTasks w fuel input_path w.outputDirPath encryption 0 output_profiles
    let trace := Event.createOutputDir :: (tasks.map Prod.snd).flatten
    match try_join_all (tasks.map Prod.fst) with
    | .error e => (.error e, trace)
    | .ok resolution_results =>
      match generate_master_playlist true w.outputDirPath
          (resolution_results.map fun r => r.resolution)
          (resolution_results.map fun r => r.playlist_name) with
      | .error e => (.error e, trace)
      | .ok master_m3u8_data =>
        (.ok { master_m3u8_data := master_m3u8_data, resolutions := resolution_results }, trace)

/- =====================================================================
Theorems.
===================================================================== -/

/- C6: both process runners. -/

/-- The line of the claim that fails: a spawn failure and a non-zero exit
are NOT two distinct classifications.  At concrete inputs, `run_command`
returns the `commandExecutionError` variant for a failed spawn and the
very same variant for a non-zero exit (`run_ffmpeg_command` likewise
returns `ffmpegError` for both): the caller cannot tell the two cases
apart by matching on the error enum. -/
theorem C6_counterexample :
    run_command ["ffmpeg"] (.spawnFailure "No such file or directory (os error 2)") =
      .error (.commandExecutionError "No such file or directory (os error 2)") ∧
    run_command ["ffmpeg"] (.completed false "encoder exploded") =
      .error (.commandExecutionError "GStreamer failed: encoder exploded") ∧
    runResultClass (run_command ["ffmpeg"] (.spawnFailure "No such file or directory (os error 2)")) =
      runResultClass (run_command ["ffmpeg"] (.completed false "encoder exploded")) ∧
    run_ffmpeg_command ["ffmpeg"] (.spawnFailure "No such file or directory (os error 2)") =
      .error (.ffmpegError "No such file or directory (os error 2)") ∧
    run_ffmpeg_command ["ffmpeg"] (.completed false "encoder exploded") =
      .error (.ffmpegError "FFmpeg error: encoder exploded") ∧
    runResultClass (run_ffmpeg_command ["ffmpeg"] (.spawnFailure "No such file or directory (os error 2)")) =
      runResultClass (run_ffmpeg_command ["ffmpeg"] (.completed false "encoder exploded")) :=
  ⟨rfl, rfl, rfl, rfl, rfl, rfl⟩

/-- Claim C6 (amended): for every command whose child process fails, the
runner surfaces the failure through a single error variant
(`commandExecutionError` in `run_command`, `ffmpegError` in
`run_ffmpeg_command`): a spawn failure carries the OS diagnostic verbatim,
a non-zero exit carries a message embedding the captured standard-error
stream; the two cases differ only in the message text, not in the error
variant the caller can match on. -/
theorem C6_amended (command : List String) (diag stderrText : String) :
    run_command command (.spawnFailure diag) = .error (.commandExecutionError diag) ∧
    run_command command (.completed false stderrText) =
      .error (.commandExecutionError ("GStreamer failed: " ++ stderrText)) ∧
    run_ffmpeg_command command (.spawnFailure diag) = .error (.ffmpegError diag) ∧
    run_ffmpeg_command command (.completed false stderrText) =
      .error (.ffmpegError ("FFmpeg error: " ++ stderrText)) ∧
    runResultClass (run_command command (.spawnFailure diag)) =
      runResultClass (run_command command (.completed false stderrText)) ∧
    runResultClass (run_ffmpeg_command command (.spawnFailure diag)) =
      runResultClass (run_ffmpeg_command command (.completed false stderrText)) :=
  ⟨rfl, rfl, rfl, rfl, rfl, rfl⟩

/- C3: the BANDWIDTH attribute of each EXT-X-STREAM-INF line. -/

/-- The `writeln!` loop of `generate_master_playlist`, started at running
index `n`: the line at offset `2 * i` is the `#EXT-X-STREAM-INF` line of
variant `i`, with bandwidth `(n + i + 1) * 1500000`. -/
lemma masterVariantLines_getElem (names : List String) :
    ∀ (rs : List (Int × Int)) (n i : Nat), i < rs.length →
    (masterVariantLines names n rs).get? (2 * i) =
      some ("#EXT-X-STREAM-INF:BANDWIDTH=" ++ toString ((n + i + 1) * 1500000)
        ++ ",RESOLUTION=" ++ toString (rs.getD i (0, 0)).1
        ++ "x" ++ toString (rs.getD i (0, 0)).2) := by
  intro rs
  induction rs with
  | nil => intro n i h; simp at h
  | cons wh rest ih =>
    intro n i h
    obtain ⟨w, ht⟩ := wh
    cases i with
    | zero =>
      simp [masterVariantLines]
    | succ j =>
      have hj : j < rest.length := by simpa using h
      have h2 : 2 * (j + 1) = 2 * j + 1 + 1 := by omega
      simp only [masterVariantLines]
      rw [h2, List.get?_cons_succ, List.get?_cons_succ, ih (n + 1) j hj]
      have h3 : n + 1 + j = n + (j + 1) := by omega
      simp [h3]

/-- Claim C3: for every variant at zero-based position `i` of the master
playlist, the `BANDWIDTH` attribute written on its `#EXT-X-STREAM-INF`
line is exactly `(i + 1) * 1500000`. -/
theorem C3_bandwidth (resolutions : List (Int × Int)) (playlist_filenames : List String)
    (i : Nat) (h : i < resolutions.length) :
    (masterVariantLines playlist_filenames 0 resolutions).get? (2 * i) =
      some ("#EXT-X-STREAM-INF:BANDWIDTH=" ++ toString ((i + 1) * 1500000)
        ++ ",RESOLUTION=" ++ toString (resolutions.getD i (0, 0)).1
        ++ "x" ++ toString (resolutions.getD i (0, 0)).2) := by
  have hx := masterVariantLines_getElem playlist_filenames resolutions 0 i h
  simpa using hx

/-- Claim C3, instantiated: the second variant of a two-profile playlist
carries `BANDWIDTH=3000000`. -/
theorem C3_bandwidth_witness :
    (masterVariantLines ["playlist_0.m3u8", "playlist_1.m3u8"] 0
        [((640 : Int), (360 : Int)), (1280, 720)]).get? (2 * 1) =
      some ("#EXT-X-STREAM-INF:BANDWIDTH=" ++ toString ((1 + 1) * 1500000)
        ++ ",RESOLUTION="
        ++ toString (([((640 : Int), (360 : Int)), (1280, 720)]).getD 1 (0, 0)).1
        ++ "x" ++ toString (([((640 : Int), (360 : Int)), (1280, 720)]).getD 1 (0, 0)).2) :=
  C3_bandwidth [(640, 360), (1280, 720)] ["playlist_0.m3u8", "playlist_1.m3u8"] 1 (by decide)

/- C4: the builder's build() contract. -/

/-- Claim C4 fails on the code: a builder with an empty error list but
several missing required fields does not get "a single aggregated
configuration error listing every violation".  A fresh builder (missing
all five required fields) and a builder missing only the input produce
the *identical* error, a `configurationError` naming just the input rule,
so the error cannot be listing every violation. -/
theorem C4_counterexample :
    FfmpegCommandBuilder.new.build =
      .error (.configurationError "Input path must be set using `.input()`.") ∧
    ((((FfmpegCommandBuilder.new.output "out").dimensions 640 360).crf 28).preset "fast").build =
      .error (.configurationError "Input path must be set using `.input()`.") := by
  constructor <;> rfl

/-- Claim C4 (amended): `build()` returns the argument vector iff the
accumulated error list is empty AND every required field (input, output,
dimensions, quality factor, preset) was supplied with a non-empty
input/output path.  When the accumulated error list is non-empty it
returns one aggregated error listing every accumulated violation joined
in the order the settings were applied; when the list is empty but a
required field is missing it returns a configuration error naming only
the FIRST missing field, checked in the fixed order input, output,
dimensions, quality factor, preset. -/
theorem C4_amended (b : FfmpegCommandBuilder) :
    ((∃ args, b.build = .ok args) ↔
      (b.build_errors = [] ∧ b.has_input = true ∧ b.command.input_path ≠ "" ∧
       b.has_output = true ∧ b.command.output_path ≠ "" ∧
       b.has_dimensions = true ∧ b.has_crf = true ∧ b.has_preset = true)) ∧
    (b.build_errors ≠ [] →
      b.build = .error (.buildError ("Command configuration failed: ["
        ++ joinSep "; " (b.build_errors.map FfmpegCommandBuilderError.displayText) ++ "]"))) ∧
    (b.build_errors = [] → (b.has_input = false ∨ b.command.input_path = "") →
      b.build = .error (.configurationError "Input path must be set using `.input()`.")) ∧
    (b.build_errors = [] → b.has_input = true → b.command.input_path ≠ "" →
      (b.has_output = false ∨ b.command.output_path = "") →
      b.build = .error (.configurationError "Output path must be set using `.output()`.")) ∧
    (b.build_errors = [] → b.has_input = true → b.command.input_path ≠ "" →
      b.has_output = true → b.command.output_path ≠ "" → b.has_dimensions = false →
      b.build = .error (.configurationError
        "Output dimensions (width and height) must be set using `.dimensions()`.")) ∧
    (b.build_errors = [] → b.has_input = true → b.command.input_path ≠ "" →
      b.has_output = true → b.command.output_path ≠ "" → b.has_dimensions = true →
      b.has_crf = false →
      b.build = .error (.configurationError "CRF (quality) must be set using `.crf()`.")) ∧
    (b.build_errors = [] → b.has_input = true → b.command.input_path ≠ "" →
      b.has_output = true → b.command.output_path ≠ "" → b.has_dimensions = true →
      b.has_crf = true → b.has_preset = false →
      b.build = .error (.configurationError "Preset must be set using `.preset()`.")) := by
  refine ⟨⟨?_, ?_⟩, ?_, ?_, ?_, ?_, ?_, ?_⟩
  · rintro ⟨args, hargs⟩
    rcases hb : b.build_errors with _ | ⟨e, es⟩
    · cases hhi : b.has_input with
      | false => simp [FfmpegCommandBuilder.build, hb, hhi] at hargs
      | true =>
        by_cases hip : b.command.input_path = ""
        · simp [FfmpegCommandBuilder.build, hb, hhi, hip] at hargs
        · cases hho : b.has_output with
          | false => simp [FfmpegCommandBuilder.build, hb, hhi, hip, hho] at hargs
          | true =>
            by_cases hop : b.command.output_path = ""
            · simp [FfmpegCommandBuilder.build, hb, hhi, hip, hho, hop] at hargs
            · cases hhd : b.has_dimensions with
              | false => simp [FfmpegCommandBuilder.build, hb, hhi, hip, hho, hop, hhd] at hargs
              | true =>
                cases hhc : b.has_crf with
                | false =>
                  simp [FfmpegCommandBuilder.build, hb, hhi, hip, hho, hop, hhd, hhc] at hargs
                | true =>
                  cases hhp : b.has_preset with
                  | false =>
                    simp [FfmpegCommandBuilder.build, hb, hhi, hip, hho, hop, hhd, hhc, hhp]
                      at hargs
                  | true => exact ⟨rfl, rfl, hip, rfl, hop, rfl, rfl, rfl⟩
    · simp [FfmpegCommandBuilder.build, hb] at hargs
  · rintro ⟨he, hi, hip, ho, hop, hd, hc, hp⟩
    exact ⟨b.command.to_args, by simp [FfmpegCommandBuilder.build, he, hi, hip, ho, hop, hd, hc, hp]⟩
  · intro hne
    rcases hb : b.build_errors with _ | ⟨e, es⟩
    · exact absurd hb hne
    · rw [← hb]
      simp [FfmpegCommandBuilder.build, hb]
  · intro he hin
    rcases hin with h | h <;> simp [FfmpegCommandBuilder.build, he, h]
  · intro he hi hip hout
    rcases hout with h | h <;> simp [FfmpegCommandBuilder.build, he, hi, hip, h]
  · intro he hi hip ho hop hd
    simp [FfmpegCommandBuilder.build, he, hi, hip, ho, hop, hd]
  · intro he hi hip ho hop hd hc
    simp [FfmpegCommandBuilder.build, he, hi, hip, ho, hop, hd, hc]
  · intro he hi hip ho hop hd hc hp
    simp [FfmpegCommandBuilder.build, he, hi, hip, ho, hop, hd, hc, hp]

/- C5: segment discovery stops at the first missing index. -/

/-- The discovery loop started at `start`: when the `k` indices from
`start` all exist and `start + k` does not, the loop returns exactly the
segments of those `k` indices, in increasing index order, no matter what
exists beyond the gap. -/
lemma collectSegments_eq (fs : Fs) (pat : String) (idx : Nat) :
    ∀ (k fuel start : Nat),
    (∀ j, j < k → fs.pathExists (segPathOf pat (start + j)) = true) →
    fs.pathExists (segPathOf pat (start + k)) = false →
    k < fuel →
    collectSegments fs pat idx fuel start =
      (List.range k).map (fun j =>
        { segment_name := "data_" ++ toString idx ++ "_" ++ fmt03 (start + j) ++ ".ts",
          segment_data := fs.fileContent (segPathOf pat (start + j)) }) := by
  intro k
  induction k with
  | zero =>
    intro fuel start hpre hmiss hfuel
    cases fuel with
    | zero => omega
    | succ f =>
      have hm : fs.pathExists (segPathOf pat start) = false := by simpa using hmiss
      simp [collectSegments, hm]
  | succ k ih =>
    intro fuel start hpre hmiss hfuel
    cases fuel with
    | zero => omega
    | succ f =>
      have h0 : fs.pathExists (segPathOf pat start) = true := by
        simpa using hpre 0 (Nat.succ_pos k)
      have htail := ih f (start + 1)
        (fun j hj => by
          have hx := hpre (j + 1) (by omega)
          have harith : start + (j + 1) = start + 1 + j := by omega
          rwa [harith] at hx)
        (by
          have harith : start + (k + 1) = start + 1 + k := by omega
          rwa [harith] at hmiss)
        (by omega)
      simp only [collectSegments, h0, if_true]
      have hmapeq : List.map
          (fun j => ({ segment_name := "data_" ++ toString idx ++ "_" ++ fmt03 (start + 1 + j) ++ ".ts",
                       segment_data := fs.fileContent (segPathOf pat (start + 1 + j)) } : HlsVideoSegment))
          (List.range k) =
        List.map ((fun j => ({ segment_name := "data_" ++ toString idx ++ "_" ++ fmt03 (start + j) ++ ".ts",
                               segment_data := fs.fileContent (segPathOf pat (start + j)) } : HlsVideoSegment)) ∘ Nat.succ)
          (List.range k) := by
        apply List.map_congr_left
        intro a ha
        have harith : start + 1 + a = start + (a + 1) := by omega
        simp [Function.comp, harith]
      rw [htail, List.range_succ_eq_map, List.map_cons, List.map_map, hmapeq]
      simp

/-- Claim C5: the variant built by `read_playlist_and_segments` holds
exactly the segments of the maximal contiguous prefix of existing indices
starting at 0: discovery stops at the first missing index without error,
whatever exists past the gap is not included, and the included segments
appear in increasing index order. -/
theorem C5_segment_discovery (fs : Fs) (fuel : Nat)
    (playlist_filename segment_filename : String) (resolution : Int × Int)
    (stream_index k : Nat)
    (hplaylist : fs.pathExists playlist_filename = true)
    (hpre : ∀ j, j < k → fs.pathExists (segPathOf segment_filename j) = true)
    (hgap : fs.pathExists (segPathOf segment_filename k) = false)
    (hfuel : k < fuel) :
    read_playlist_and_segments fs fuel playlist_filename segment_filename
        resolution stream_index =
      .ok { resolution := resolution,
            playlist_name := "playlist_" ++ toString stream_index ++ ".m3u8",
            playlist_data := fs.fileContent playlist_filename,
            segments := (List.range k).map (fun j =>
              { segment_name := "data_" ++ toString stream_index ++ "_" ++ fmt03 j ++ ".ts",
                segment_data := fs.fileContent (segPathOf segment_filename j) }) } ∧
    (collectSegments fs segment_filename stream_index fuel 0).length = k := by
  have hc := collectSegments_eq fs segment_filename stream_index k fuel 0
    (fun j hj => by simpa using hpre j hj) (by simpa using hgap) hfuel
  constructor
  · simp only [read_playlist_and_segments, hplaylist, if_true]
    rw [hc]
    simp
  · rw [hc]
    simp

/-- Concrete filesystem for the C5 witness: the spec's own example, with
segments 0 and 1 present, 2 missing and 3 present. -/
def fsC5 : Fs :=
  { pathExists := fun s =>
      s == "p.m3u8" || s == "d_000.ts" || s == "d_001.ts" || s == "d_003.ts",
    isFile := fun _ => false,
    fileContent := fun _ => [9] }

/-- Claim C5, instantiated: with segments 0 and 1 on disk, 2 missing and 3
present, discovery returns exactly the two-segment contiguous prefix. -/
theorem C5_segment_discovery_witness :
    read_playlist_and_segments fsC5 10 "p.m3u8" "d_%03d.ts" (100, 200) 7 =
      .ok { resolution := (100, 200),
            playlist_name := "playlist_" ++ toString 7 ++ ".m3u8",
            playlist_data := fsC5.fileContent "p.m3u8",
            segments := (List.range 2).map (fun j =>
              { segment_name := "data_" ++ toString 7 ++ "_" ++ fmt03 j ++ ".ts",
                segment_data := fsC5.fileContent (segPathOf "d_%03d.ts" j) }) } ∧
    (collectSegments fsC5 "d_%03d.ts" 7 10 0).length = 2 :=
  C5_segment_discovery fsC5 10 "p.m3u8" "d_%03d.ts" (100, 200) 7 2
    (by decide) (by decide) (by decide) (by decide)

/- C7: magic-byte validation rejects sources whose leading bytes do not
match the signature of their (hinted) format. -/

/-- Claim C7: a file-path source whose (lower-cased) extension is in the
supported set but whose leading bytes fail that extension's magic-byte
check is rejected with the unrecognized-format error; and an in-memory
source whose bytes match no supported format's signature is rejected the
same way (the in-memory branch carries no extension, so a buffer fails
exactly when every supported signature fails). -/
theorem C7_magic_bytes (fs : Fs) (tempFilePath path : String)
    (hpath : path ≠ "")
    (hex : fs.pathExists path = true)
    (hfile : fs.isFile path = true)
    (hext : valid_video_extensions.contains
      (lowerAscii ((pathExtension path).getD "invalid")) = true)
    (hmagic : is_valid_magic_bytes ((fs.fileContent path).take 16)
      (lowerAscii ((pathExtension path).getD "invalid")) = false) :
    VideoInputType.validate fs tempFilePath (.filePath path) = .error .invalidFormat ∧
    ∀ video_data : Bytes, video_data ≠ [] →
      (∀ ext, ext ∈ valid_video_extensions → is_valid_magic_bytes video_data ext = false) →
      VideoInputType.validate fs tempFilePath (.inMemoryFile video_data) =
        .error .invalidFormat := by
  constructor
  · have hmem : lowerAscii ((pathExtension path).getD "invalid") ∈ valid_video_extensions := by
      simpa using hext
    simp [VideoInputType.validate, hpath, hex, hfile, hext, hmem, hmagic]
  · intro video_data hne hall
    have hempty : video_data.isEmpty = false := by
      cases video_data with
      | nil => exact absurd rfl hne
      | cons b bs => rfl
    have hany : valid_video_extensions.any
        (fun ext => is_valid_magic_bytes video_data ext) = false := by
      rw [List.any_eq_false]
      intro x hx
      simp [hall x hx]
    simp [VideoInputType.validate, hempty, hany]

/-- Concrete filesystem for the C7 witness: `video.mp4` exists with 16
zero bytes (no `ftyp` at offset 4). -/
def fsC7 : Fs :=
  { pathExists := fun s => s == "video.mp4",
    isFile := fun s => s == "video.mp4",
    fileContent := fun _ => List.replicate 16 0 }

/-- Claim C7, instantiated: a `.mp4` path without the `ftyp` signature and
a non-empty buffer matching no signature are both rejected as
`invalidFormat`. -/
theorem C7_magic_bytes_witness :
    VideoInputType.validate fsC7 "/tmp/t" (.filePath "video.mp4") = .error .invalidFormat ∧
    VideoInputType.validate fsC7 "/tmp/t" (.inMemoryFile [1, 2, 3]) = .error .invalidFormat := by
  have h := C7_magic_bytes fsC7 "/tmp/t" "video.mp4"
    (by decide) (by decide) (by decide) (by decide) (by decide)
  exact ⟨h.1, h.2 [1, 2, 3] (by decide) (by decide)⟩

/- C8: validation failures precede creation of the working directory. -/

/-- Claim C8: an empty in-memory source fails with the empty-input error
and a non-existent (non-empty) file path fails with the file-not-found
error, and in both cases the run's side-effect trace is empty: in
particular no output working directory is created before the failure. -/
theorem C8_validation_precedes_workdir (w : World) (fuel : Nat)
    (profiles : List HlsVideoProcessingSettings)
    (enc : Option VideoProcessorEncryptionSettings)
    (path : String) (hne : path ≠ "") (hnx : w.fs.pathExists path = false) :
    process_video_internal w fuel (.inMemoryFile []) profiles enc =
      (.error (.videoValidationError .emptyVideoInput), []) ∧
    process_video_internal w fuel (.filePath path) profiles enc =
      (.error (.videoValidationError .fileNotFound), []) ∧
    Event.createOutputDir ∉ (process_video_internal w fuel (.inMemoryFile []) profiles enc).2 ∧
    Event.createOutputDir ∉ (process_video_internal w fuel (.filePath path) profiles enc).2 := by
  have h1 : process_video_internal w fuel (.inMemoryFile []) profiles enc =
      (.error (.videoValidationError .emptyVideoInput), []) := by
    simp [process_video_internal, VideoInputType.validate]
  have h2 : process_video_internal w fuel (.filePath path) profiles enc =
      (.error (.videoValidationError .fileNotFound), []) := by
    simp [process_video_internal, VideoInputType.validate, hne, hnx]
  refine ⟨h1, h2, ?_, ?_⟩
  · rw [h1]; simp
  · rw [h2]; simp

/-- Concrete world for the C8 witness: an empty filesystem. -/
def wC8 : World :=
  { fs := { pathExists := fun _ => false, isFile := fun _ => false, fileContent := fun _ => [] },
    run := fun _ => .completed true "",
    tempFilePath := "/tmp/in",
    outputDirPath := "outdir" }

/-- Claim C8, instantiated: the empty buffer and a missing `missing.mp4`
both fail during validation with an empty side-effect trace. -/
theorem C8_validation_precedes_workdir_witness :
    process_video_internal wC8 4 (.inMemoryFile []) [] none =
      (.error (.videoValidationError .emptyVideoInput), []) ∧
    process_video_internal wC8 4 (.filePath "missing.mp4") [] none =
      (.error (.videoValidationError .fileNotFound), []) ∧
    Event.createOutputDir ∉ (process_video_internal wC8 4 (.inMemoryFile []) [] none).2 ∧
    Event.createOutputDir ∉ (process_video_internal wC8 4 (.filePath "missing.mp4") [] none).2 :=
  C8_validation_precedes_workdir wC8 4 [] none "missing.mp4" (by decide) (by decide)

/- C9: the enum presets "faster" and "veryfast" are rejected by the
builder before any subprocess is spawned. -/

/-- Whenever some violation was accumulated, `build()` takes the
aggregating branch and returns a `buildError`. -/
lemma build_error_of_mem {b : FfmpegCommandBuilder} {e : FfmpegCommandBuilderError}
    (hmem : e ∈ b.build_errors) :
    ∃ msg, b.build = .error (.buildError msg) := by
  have hne : b.build_errors ≠ [] := List.ne_nil_of_mem hmem
  have hie : b.build_errors.isEmpty = false := by
    cases h : b.build_errors with
    | nil => exact absurd h hne
    | cons a l => rfl
  refine ⟨"Command configuration failed: ["
    ++ joinSep "; " (b.build_errors.map FfmpegCommandBuilderError.displayText) ++ "]", ?_⟩
  simp [FfmpegCommandBuilder.build, hie]

/-- Claim C9: a profile whose preset is `Faster` or `VeryFast` makes the
backend's per-profile processing fail with a builder error before any
subprocess is spawned (the side-effect trace is empty), because the
strings `"faster"` and `"veryfast"` produced by the settings enum are
absent from the builder's accepted preset list — which instead contains
`"none"` — while every other enum preset's string is accepted. -/
theorem C9_preset_mismatch (w : World) (fuel : Nat) (input output_dir : String)
    (stream_index : Nat) (enc : Option VideoProcessorEncryptionSettings)
    (profile : HlsVideoProcessingSettings)
    (hp : profile.preset = .faster ∨ profile.preset = .veryFast) :
    (∃ msg, (FfmpegBackend.process_profile w fuel input profile output_dir
      stream_index enc).1 = .error (.ffmpegBuilder (.buildError msg))) ∧
    (FfmpegBackend.process_profile w fuel input profile output_dir stream_index enc).2 = [] ∧
    valid_presets.contains "faster" = false ∧
    valid_presets.contains "veryfast" = false ∧
    valid_presets.contains "none" = true ∧
    FfmpegVideoProcessingPreset.faster.value = "faster" ∧
    FfmpegVideoProcessingPreset.veryFast.value = "veryfast" ∧
    (∀ p : FfmpegVideoProcessingPreset, p ≠ .faster → p ≠ .veryFast →
      valid_presets.contains p.value = true) := by
  have hcontains : valid_presets.contains profile.preset.value = false := by
    rcases hp with h | h <;> rw [h] <;> rfl
  have hmem : FfmpegCommandBuilderError.ffmpegSettingError
      ("Preset '" ++ profile.preset.value ++ "' is not a recognized FFmpeg preset.")
      ∈ ((((((FfmpegCommandBuilder.new.input input).dimensions
            profile.resolution.1 profile.resolution.2).crf
            profile.constant_rate_factor).preset
            profile.preset.value).enable_hls
            (output_dir ++ "/data_" ++ toString stream_index ++ "_%03d.ts") none
            (enc.map fun e => e.encryption_key_url)
            (enc.map fun e =>
              ({ encryption_key_path := e.encryption_key_path, iv := e.iv } :
                HlsOutputEncryptionConfig)) 10).output
            (output_dir ++ "/playlist_" ++ toString stream_index ++ ".m3u8")).build_errors := by
    simp only [FfmpegCommandBuilder.output, FfmpegCommandBuilder.enable_hls,
      FfmpegCommandBuilder.preset, FfmpegCommandBuilder.crf,
      FfmpegCommandBuilder.dimensions, FfmpegCommandBuilder.input,
      FfmpegCommandBuilder.new, hcontains]
    split_ifs <;> simp [List.mem_append]
  obtain ⟨msg, hbuild⟩ := build_error_of_mem hmem
  refine ⟨⟨msg, ?_⟩, ?_, rfl, rfl, rfl, rfl, rfl, ?_⟩
  · simp only [FfmpegBackend.process_profile]
    rw [hbuild]
  · simp only [FfmpegBackend.process_profile]
    rw [hbuild]
  · intro p h1 h2
    cases p <;> first
      | rfl
      | exact absurd rfl h1
      | exact absurd rfl h2

/-- Concrete world and profile for the C9 witness. -/
def wC9 : World :=
  { fs := { pathExists := fun _ => false, isFile := fun _ => false, fileContent := fun _ => [] },
    run := fun _ => .completed true "",
    tempFilePath := "/tmp/in",
    outputDirPath := "outdir" }

/-- A profile whose preset is `Faster`. -/
def profileC9 : HlsVideoProcessingSettings :=
  { resolution := (640, 360), constant_rate_factor := 28,
    audio_codec := .aac, audio_bitrate := .medium, preset := .faster }

/-- Claim C9, instantiated at a `Faster`-preset profile. -/
theorem C9_preset_mismatch_witness :
    (∃ msg, (FfmpegBackend.process_profile wC9 4 "/tmp/in" profileC9 "outdir" 0 none).1 =
      .error (.ffmpegBuilder (.buildError msg))) ∧
    (FfmpegBackend.process_profile wC9 4 "/tmp/in" profileC9 "outdir" 0 none).2 = [] ∧
    valid_presets.contains "faster" = false ∧
    valid_presets.contains "veryfast" = false ∧
    valid_presets.contains "none" = true ∧
    FfmpegVideoProcessingPreset.faster.value = "faster" ∧
    FfmpegVideoProcessingPreset.veryFast.value = "veryfast" ∧
    (∀ p : FfmpegVideoProcessingPreset, p ≠ .faster → p ≠ .veryFast →
      valid_presets.contains p.value = true) :=
  C9_preset_mismatch wC9 4 "/tmp/in" "outdir" 0 none profileC9 (Or.inl rfl)

/- C1, C2, C10: the orchestration pipeline. -/

/-- `getD` through `map` at an in-range index. -/
lemma getD_map_of_lt {α β : Type} (f : α → β) (l : List α) {j : Nat}
    (h : j < l.length) (d : β) (d2 : α) :
    (l.map f).getD j d = f (l.getD j d2) := by
  rw [List.getD_eq_get?, List.getD_eq_get?, List.get?_map, List.get?_eq_get h]
  simp

/-- Fan-in: when every task of the enumerate-map succeeds with the
corresponding entry of `rs`, `try_join_all` returns exactly `rs`, in task
(input) order. -/
lemma processTasks_join {w : World} {fuel : Nat} {input_path output_dir : String}
    {enc : Option VideoProcessorEncryptionSettings} :
    ∀ (ps : List HlsVideoProcessingSettings) (n : Nat) (rs : List HlsVideoResolution),
    rs.length = ps.length →
    (∀ i (h : i < ps.length),
      (FfmpegBackend.process_profile w fuel input_path (ps.get ⟨i, h⟩) output_dir
        (n + i) enc).1 = .ok (rs.getD i default)) →
    try_join_all ((processTasks w fuel input_path output_dir enc n ps).map Prod.fst) =
      .ok rs := by
  intro ps
  induction ps with
  | nil =>
    intro n rs hlen _
    cases rs with
    | nil => rfl
    | cons r rtail => simp at hlen
  | cons p ptail ih =>
    intro n rs hlen hok
    cases rs with
    | nil => simp at hlen
    | cons r rtail =>
      have h0 := hok 0 (by simp)
      simp at h0
      have htail := ih (n + 1) rtail (by simpa using hlen) (fun i hi => by
        have hx := hok (i + 1) (by simpa using Nat.succ_lt_succ hi)
        have harith : n + (i + 1) = n + 1 + i := by omega
        simpa [harith] using hx)
      simp [processTasks, try_join_all, h0, htail]

/-- A successful per-profile result always carries the playlist name
`playlist_{stream_index}.m3u8` (set by `read_playlist_and_segments`). -/
lemma process_profile_name {w : World} {fuel : Nat} {input : String}
    {profile : HlsVideoProcessingSettings} {output_dir : String} {stream_index : Nat}
    {enc : Option VideoProcessorEncryptionSettings} {r : HlsVideoResolution}
    (h : (FfmpegBackend.process_profile w fuel input profile output_dir
      stream_index enc).1 = .ok r) :
    r.playlist_name = "playlist_" ++ toString stream_index ++ ".m3u8" := by
  simp only [FfmpegBackend.process_profile] at h
  split at h
  · simp at h
  · split at h
    · simp at h
    · split at h
      · simp at h
      · next heq =>
        simp only [Prod.fst] at h
        cases h
        simp only [read_playlist_and_segments] at heq
        split at heq
        · cases heq
          rfl
        · cases heq

/-- The `writeln!` loop as an index-range flatten: block `j` holds the
`#EXT-X-STREAM-INF` line with bandwidth `(n + j + 1) * 1500000` followed
by the filename at absolute index `n + j`. -/
lemma masterVariantLines_eq (names : List String) :
    ∀ (rs : List (Int × Int)) (n : Nat),
    masterVariantLines names n rs =
      ((List.range rs.length).map (fun j =>
        ["#EXT-X-STREAM-INF:BANDWIDTH=" ++ toString ((n + j + 1) * 1500000)
           ++ ",RESOLUTION=" ++ toString (rs.getD j (0, 0)).1
           ++ "x" ++ toString (rs.getD j (0, 0)).2,
         names.getD (n + j) ""])).flatten := by
  intro rs
  induction rs with
  | nil => intro n; rfl
  | cons wh rest ih =>
    intro n
    obtain ⟨w, ht⟩ := wh
    have hmap : List.map ((fun j =>
        ["#EXT-X-STREAM-INF:BANDWIDTH=" ++ toString ((n + j + 1) * 1500000)
           ++ ",RESOLUTION=" ++ toString (((w, ht) :: rest).getD j (0, 0)).1
           ++ "x" ++ toString (((w, ht) :: rest).getD j (0, 0)).2,
         names.getD (n + j) ""]) ∘ Nat.succ) (List.range rest.length) =
      List.map (fun j =>
        ["#EXT-X-STREAM-INF:BANDWIDTH=" ++ toString ((n + 1 + j + 1) * 1500000)
           ++ ",RESOLUTION=" ++ toString (rest.getD j (0, 0)).1
           ++ "x" ++ toString (rest.getD j (0, 0)).2,
         names.getD (n + 1 + j) ""]) (List.range rest.length) := by
      apply List.map_congr_left
      intro a ha
      have h1 : n + (a + 1) + 1 = n + 1 + a + 1 := by omega
      have h2 : n + (a + 1) = n + 1 + a := by omega
      simp [Function.comp, List.getD_cons_succ, h1, h2]
    simp only [masterVariantLines]
    rw [ih (n + 1), List.length_cons, List.range_succ_eq_map, List.map_cons, List.map_map,
      hmap, List.flatten_cons]
    simp

/-- Claim C1: when validation succeeds and every profile's task succeeds
(with the results listed by input position in `results`), the package is
returned with exactly one variant per profile, and its variant list *is*
`results`: the i-th variant comes from the i-th input profile, by input
order (the fan-in `try_join_all` keeps task order, independent of
completion order). -/
theorem C1_variant_count_order (w : World) (fuel : Nat) (input : VideoInputType)
    (profiles : List HlsVideoProcessingSettings)
    (enc : Option VideoProcessorEncryptionSettings)
    (guard : VideoInputPathGuard) (results : List HlsVideoResolution)
    (hval : VideoInputType.validate w.fs w.tempFilePath input = .ok guard)
    (hlen : results.length = profiles.length)
    (hok : ∀ i (h : i < profiles.length),
      (FfmpegBackend.process_profile w fuel guard.path (profiles.get ⟨i, h⟩)
        w.outputDirPath i enc).1 = .ok (results.getD i default)) :
    ∃ video trace, process_video_internal w fuel input profiles enc = (.ok video, trace) ∧
      video.resolutions = results ∧
      video.resolutions.length = profiles.length := by
  have hjoin := processTasks_join profiles 0 results hlen (fun i h => by
    simpa using hok i h)
  simp only [process_video_internal, hval]
  rw [hjoin]
  simp only [generate_master_playlist]
  exact ⟨_, _, rfl, rfl, by rw [hlen]⟩

/-- Concrete filesystem for the orchestration witnesses: both variant
playlists exist, no segment files. -/
def fsOrch : Fs :=
  { pathExists := fun s => s == "outdir/playlist_0.m3u8" || s == "outdir/playlist_1.m3u8",
    isFile := fun _ => false,
    fileContent := fun _ => [] }

/-- Concrete world for the orchestration witnesses: every spawned command
succeeds. -/
def wOrch : World :=
  { fs := fsOrch,
    run := fun _ => .completed true "",
    tempFilePath := "/tmp/in.mp4",
    outputDirPath := "outdir" }

/-- A minimal in-memory mp4 source: size box then `ftyp` at offset 4. -/
def mp4Demo : Bytes := [0, 0, 0, 24, 0x66, 0x74, 0x79, 0x70]

/-- The guard `validate` produces for `mp4Demo` in `wOrch`. -/
def guardOrch : VideoInputPathGuard := { path := "/tmp/in.mp4", temp_file := true }

/-- First witness profile. -/
def profileOrchA : HlsVideoProcessingSettings :=
  { resolution := (640, 360), constant_rate_factor := 28,
    audio_codec := .aac, audio_bitrate := .medium, preset := .fast }

/-- Second witness profile. -/
def profileOrchB : HlsVideoProcessingSettings :=
  { resolution := (1280, 720), constant_rate_factor := 24,
    audio_codec := .aac, audio_bitrate := .medium, preset := .medium }

/-- The variant the first witness profile produces. -/
def resultOrchA : HlsVideoResolution :=
  { resolution := (640, 360), playlist_name := "playlist_0.m3u8",
    playlist_data := [], segments := [] }

/-- The variant the second witness profile produces. -/
def resultOrchB : HlsVideoResolution :=
  { resolution := (1280, 720), playlist_name := "playlist_1.m3u8",
    playlist_data := [], segments := [] }

/-- Claim C1, instantiated: two profiles, both succeeding, produce the
two variants in input order. -/
theorem C1_variant_count_order_witness :
    ∃ video trace,
      process_video_internal wOrch 3 (.inMemoryFile mp4Demo)
        [profileOrchA, profileOrchB] none = (.ok video, trace) ∧
      video.resolutions = [resultOrchA, resultOrchB] ∧
      video.resolutions.length = [profileOrchA, profileOrchB].length :=
  C1_variant_count_order wOrch 3 (.inMemoryFile mp4Demo) [profileOrchA, profileOrchB]
    none guardOrch [resultOrchA, resultOrchB] (by decide) (by decide) (by decide)

/-- Claim C10: with a valid source and an empty profile sequence the
operation succeeds, the variant list is empty and the master playlist is
exactly the single line `#EXTM3U` followed by a newline. -/
theorem C10_empty_profiles (w : World) (fuel : Nat) (input : VideoInputType)
    (enc : Option VideoProcessorEncryptionSettings) (guard : VideoInputPathGuard)
    (hval : VideoInputType.validate w.fs w.tempFilePath input = .ok guard) :
    process_video_internal w fuel input [] enc =
      (.ok { master_m3u8_data := "#EXTM3U\n", resolutions := [] },
       [Event.createOutputDir]) := by
  unfold process_video_internal
  rw [hval]
  rfl

/-- Claim C10, instantiated at the concrete world and mp4 buffer. -/
theorem C10_empty_profiles_witness :
    process_video_internal wOrch 3 (.inMemoryFile mp4Demo) [] none =
      (.ok { master_m3u8_data := "#EXTM3U\n", resolutions := [] },
       [Event.createOutputDir]) :=
  C10_empty_profiles wOrch 3 (.inMemoryFile mp4Demo) none guardOrch (by decide)

/-- Claim C2: on a fully successful run the master playlist bytes are
exactly the line `#EXTM3U`, then, for each variant in input order, one
`#EXT-X-STREAM-INF` line immediately followed by a line holding that
variant's playlist filename `playlist_{index}.m3u8` — and nothing else
(the equality fixes the whole byte content). -/
theorem C2_master_playlist (w : World) (fuel : Nat) (input : VideoInputType)
    (profiles : List HlsVideoProcessingSettings)
    (enc : Option VideoProcessorEncryptionSettings)
    (guard : VideoInputPathGuard) (results : List HlsVideoResolution)
    (hval : VideoInputType.validate w.fs w.tempFilePath input = .ok guard)
    (hlen : results.length = profiles.length)
    (hok : ∀ i (h : i < profiles.length),
      (FfmpegBackend.process_profile w fuel guard.path (profiles.get ⟨i, h⟩)
        w.outputDirPath i enc).1 = .ok (results.getD i default)) :
    ∃ video trace, process_video_internal w fuel input profiles enc = (.ok video, trace) ∧
      video.master_m3u8_data = String.join ((("#EXTM3U" ::
        ((List.range profiles.length).map (fun i =>
          ["#EXT-X-STREAM-INF:BANDWIDTH=" ++ toString ((i + 1) * 1500000)
             ++ ",RESOLUTION=" ++ toString ((results.getD i default).resolution.1)
             ++ "x" ++ toString ((results.getD i default).resolution.2),
           "playlist_" ++ toString i ++ ".m3u8"])).flatten).map (fun line => line ++ "\n"))) := by
  have hjoin := processTasks_join profiles 0 results hlen (fun i h => by
    simpa using hok i h)
  simp only [process_video_internal, hval]
  rw [hjoin]
  simp only [generate_master_playlist]
  refine ⟨_, _, rfl, ?_⟩
  show String.join ((("#EXTM3U" ::
      masterVariantLines (results.map fun r => r.playlist_name) 0
        (results.map fun r => r.resolution)).map (fun line => line ++ "\n"))) = _
  rw [masterVariantLines_eq, List.length_map, hlen]
  refine congrArg String.join (congrArg (List.map fun line => line ++ "\n")
    (congrArg (List.cons "#EXTM3U") (congrArg List.flatten ?_)))
  apply List.map_congr_left
  intro j hj
  rw [List.mem_range] at hj
  have hjr : j < results.length := by omega
  have hres : (results.map fun r => r.resolution).getD j (0, 0) =
      (results.getD j default).resolution :=
    getD_map_of_lt (fun r => r.resolution) results hjr (0, 0) default
  have hname : (results.map fun r => r.playlist_name).getD j "" =
      "playlist_" ++ toString j ++ ".m3u8" := by
    rw [getD_map_of_lt (fun r => r.playlist_name) results hjr "" default]
    exact process_profile_name (hok j hj)
  simp at hres hname
  simp [hres, hname]

/-- Claim C2, instantiated: the two-profile run's master playlist is the
header plus the two variant blocks, in input order, and nothing else. -/
theorem C2_master_playlist_witness :
    ∃ video trace,
      process_video_internal wOrch 3 (.inMemoryFile mp4Demo)
        [profileOrchA, profileOrchB] none = (.ok video, trace) ∧
      video.master_m3u8_data = String.join ((("#EXTM3U" ::
        ((List.range [profileOrchA, profileOrchB].length).map (fun i =>
          ["#EXT-X-STREAM-INF:BANDWIDTH=" ++ toString ((i + 1) * 1500000)
             ++ ",RESOLUTION="
             ++ toString (([resultOrchA, resultOrchB].getD i default).resolution.1)
             ++ "x" ++ toString (([resultOrchA, resultOrchB].getD i default).resolution.2),
           "playlist_" ++ toString i ++ ".m3u8"])).flatten).map (fun line => line ++ "\n"))) :=
  C2_master_playlist wOrch 3 (.inMemoryFile mp4Demo) [profileOrchA, profileOrchB]
    none guardOrch [resultOrchA, resultOrchB] (by decide) (by decide) (by decide)
